import Mathlib

/-!
Shallow embedding of the `/api/v1/weather` route handler that the script
`migrate_weather_complete.py` installs into `server/routes.ts`
(the string constant `new_weather_route`, lines 30-222 of the script).

JavaScript numbers are modelled as `ℚ`; `Math.round` as `jsRound`
(floor of x + 1/2, which matches JS round-half-up); the nullish
coalescing operator `??` as `Option.getD`; the falsy-or `||` on strings
and numbers as `jsOrStr` / `jsOrQ` (the empty string and 0 are falsy).
Outbound HTTP calls (current conditions, forecast, geocoding, and the
text-based `ai.weather` inference) are modelled as fields of an
environment `Env`: `none` stands for any failure mode the code collapses
(network error, non-ok status, thrown exception).  The handler is the
total function `weatherRoute`, which also returns the trace of outbound
provider calls it performed.
-/

/-- JS `Math.round`: round half toward positive infinity. -/
def jsRound (x : ℚ) : ℤ := (x + 1/2).floor

/-- JS `s || d` for strings: `undefined`, `null` and `""` are falsy. -/
def jsOrStr (v : Option String) (d : String) : String :=
  match v with
  | some s => if s = "" then d else s
  | none => d

/-- JS `x || d` for numbers: `undefined`, `null` and `0` are falsy. -/
def jsOrQ (v : Option ℚ) (d : ℚ) : ℚ :=
  match v with
  | some x => if x = 0 then d else x
  | none => d

/-- Day label: `i === 0 ? 'Today' : i === 1 ? 'Tomorrow' : 'Day i+1'`. -/
def dayLabel (i : ℕ) : String :=
  if i = 0 then "Today" else if i = 1 then "Tomorrow" else "Day " ++ toString (i + 1)

/-- The `iconMap` record literal (route lines 49-61). -/
def iconMap (t : String) : Option String :=
  if t = "CLEAR" then some "fas fa-sun"
  else if t = "PARTLY_CLOUDY" then some "fas fa-cloud-sun"
  else if t = "CLOUDY" then some "fas fa-cloud"
  else if t = "RAIN" then some "fas fa-cloud-rain"
  else if t = "SCATTERED_SHOWERS" then some "fas fa-cloud-rain"
  else if t = "DRIZZLE" then some "fas fa-cloud-rain"
  else if t = "THUNDERSTORM" then some "fas fa-bolt"
  else if t = "SNOW" then some "fas fa-snowflake"
  else if t = "MIST" then some "fas fa-smog"
  else if t = "FOG" then some "fas fa-smog"
  else if t = "WIND" then some "fas fa-wind"
  else none

/-- Lower-casing for the `condition.toLowerCase()` checks: lower-case
each character. -/
def strToLower (s : String) : String := ⟨s.data.map Char.toLower⟩

/-- Contiguous-sublist test on character lists, for JS `String.includes`. -/
def listIncludes (pat : List Char) : List Char → Bool
  | [] => pat.isEmpty
  | c :: t => pat.isPrefixOf (c :: t) || listIncludes pat t

/-- JS `s.includes(pat)`. -/
def strIncludes (s pat : String) : Bool := listIncludes pat.toList s.toList

/-- JS `Array.prototype.map` with the index argument: `l.map((a, i) => f i a)`,
starting the index at `i0`. -/
def mapWithIdx (f : ℕ → α → β) : ℕ → List α → List β
  | _, [] => []
  | i, a :: as => f i a :: mapWithIdx f (i + 1) as

/-- The fields of the current-conditions provider JSON the route reads. -/
structure CurrentData where
  temperatureDegrees : Option ℚ
  conditionText : Option String
  conditionType : Option String
  relativeHumidity : Option ℚ
  windSpeedValue : Option ℚ
  windDirectionDegrees : Option ℚ
  windDirectionCardinal : Option String
  deriving DecidableEq

/-- One entry of the provider's `forecastDays` array. -/
structure DayData where
  maxTemperatureDegrees : Option ℚ
  minTemperatureDegrees : Option ℚ
  daytimeConditionText : Option String
  daytimeConditionType : Option String
  deriving DecidableEq

/-- The forecast provider JSON: `forecastDays` may be absent. -/
structure ForecastData where
  forecastDays : Option (List DayData)
  deriving DecidableEq

/-- `results[i].geometry.location` of the geocoding response. -/
structure GeoLocation where
  lat : ℚ
  lng : ℚ
  deriving DecidableEq

/-- The geocoding response JSON: `results` may be absent. -/
structure GeocodeData where
  results : Option (List GeoLocation)
  deriving DecidableEq

/-- The normalized `current` object of the response.  Fields that some
response shapes omit (the synthetic fallbacks omit `tempMin`, `tempMax`,
`windDeg`, `windDir`, and the catch-all fallback also omits `icon`) are
`Option`s. -/
structure CurrentConditions where
  temperature : ℤ
  tempMin : Option ℤ
  tempMax : Option ℤ
  condition : String
  humidity : ℚ
  windSpeed : ℤ
  windDeg : Option ℚ
  windDir : Option String
  icon : Option String
  deriving DecidableEq

/-- One day of the response forecast. -/
structure ForecastDay where
  day : String
  high : ℤ
  low : ℤ
  condition : String
  icon : Option String
  deriving DecidableEq

/-- The JSON body the route sends.  `current := none` models the empty
object `{}`; `source`/`error`/`hourly` are present only in some shapes. -/
structure Payload where
  current : Option CurrentConditions
  forecast : List ForecastDay
  hourly : Option (List String)
  alerts : List String
  recommendations : List String
  source : Option String
  error : Option String
  deriving DecidableEq

/-- HTTP response: `res.status(s).json(body)`; bare `res.json` is 200. -/
structure Response where
  status : ℕ
  body : Payload
  deriving DecidableEq

/-- An outbound provider call, recorded with its arguments. -/
inductive Call where
  | currentConditions (lat lon : ℚ)
  | forecastDays (lat lon : ℚ)
  | geocode (address : String)
  | aiWeather (city : String)
  deriving DecidableEq

/-- The environment the handler runs in: the `GOOGLE_API_KEY` variable,
the current month (`new Date().getMonth()`), and the four outbound
collaborators.  A collaborator returning `none` stands for any failure
(network error, non-ok HTTP status, thrown exception, malformed body). -/
structure Env where
  key : Option String
  month : ℕ
  current : ℚ → ℚ → Option CurrentData
  forecastDays : ℚ → ℚ → Option ForecastData
  geocode : String → Option GeocodeData
  ai : String → Option Payload

/-- The caller's query after the coercions on route lines 32-35:
`lat`/`lon` are `some` exactly when `Number(req.query.lat)` /
`Number(req.query.lon)` is finite; `cityQ` is the trimmed
`city || location` string; `units` defaults to `"metric"`. -/
structure WeatherQuery where
  lat : Option ℚ
  lon : Option ℚ
  cityQ : String
  units : String
  deriving DecidableEq

/-- The inner `getWeatherData` closure (route lines 63-141): fetch
current conditions, then the 7-day forecast, normalize both, derive
recommendations.  Returns `none` when either provider call fails (the
closure catches its own exceptions), together with the trace of
outbound calls made. -/
def getWeatherData (env : Env) (units : String) (latNum lonNum : ℚ) :
    Option Payload × List Call :=
  match env.current latNum lonNum with
  | none => (none, [Call.currentConditions latNum lonNum])
  | some currentData =>
    match env.forecastDays latNum lonNum with
    | none => (none, [Call.currentConditions latNum lonNum, Call.forecastDays latNum lonNum])
    | some forecastData =>
      let tempCelsius := currentData.temperatureDegrees.getD 22
      let temperature :=
        if units = "metric" then jsRound tempCelsius else jsRound (tempCelsius * 9 / 5 + 32)
      let condition := jsOrStr currentData.conditionText "Clear"
      let conditionType := jsOrStr currentData.conditionType "CLEAR"
      let current0 : CurrentConditions :=
        { temperature := temperature
          tempMin := some (temperature - 5)
          tempMax := some temperature
          condition := condition
          humidity := currentData.relativeHumidity.getD 60
          windSpeed := jsRound (currentData.windSpeedValue.getD 10)
          windDeg := some (currentData.windDirectionDegrees.getD 0)
          windDir := some (jsOrStr currentData.windDirectionCardinal "N")
          icon := some (jsOrStr (iconMap conditionType) "fas fa-cloud") }
      let forecast : List ForecastDay :=
        mapWithIdx (fun i day =>
          let maxTemp := day.maxTemperatureDegrees.getD (temperature : ℚ)
          let minTemp := day.minTemperatureDegrees.getD ((temperature : ℚ) - 5)
          { day := dayLabel i
            high := if units = "metric" then jsRound maxTemp else jsRound (maxTemp * 9 / 5 + 32)
            low := if units = "metric" then jsRound minTemp else jsRound (minTemp * 9 / 5 + 32)
            condition := jsOrStr day.daytimeConditionText "Clear"
            icon := some (jsOrStr (iconMap (jsOrStr day.daytimeConditionType "CLEAR")) "fas fa-cloud") })
          0 ((forecastData.forecastDays.getD []).take 7)
      let current : CurrentConditions :=
        match forecast with
        | [] => current0
        | f0 :: _ => { current0 with tempMax := some f0.high, tempMin := some f0.low }
      let recommendations :=
        (if 30 ≤ current.temperature then ["Stay hydrated"] else []) ++
        (if strIncludes (strToLower condition) "rain" || strIncludes (strToLower condition) "shower"
          then ["Carry a raincoat"] else []) ++
        ["Use sunscreen during midday"]
      (some { current := some current
              forecast := forecast
              hourly := some []
              alerts := []
              recommendations := recommendations
              source := some "google-weather"
              error := none },
        [Call.currentConditions latNum lonNum, Call.forecastDays latNum lonNum])

/-- The seasonal baseline: `[20,22,26,30,32,33,32,31,30,28,24,21][month] || 28`. -/
def fallbackBaseTemp (m : ℕ) : ℚ :=
  jsOrQ (([20, 22, 26, 30, 32, 33, 32, 31, 30, 28, 24, 21] : List ℚ).get? m) 28

/-- `baseTemp >= 30 ? 'Sunny' : baseTemp >= 25 ? 'Partly Cloudy' : 'Cloudy'`. -/
def fallbackCondition (baseTemp : ℚ) : String :=
  if 30 ≤ baseTemp then "Sunny" else if 25 ≤ baseTemp then "Partly Cloudy" else "Cloudy"

/-- The 4-way condition cycle of the synthetic forecast. -/
def fallbackDayCondition (i : ℕ) : String :=
  if i % 4 = 0 then "Sunny"
  else if i % 4 = 1 then "Partly Cloudy"
  else if i % 4 = 2 then "Cloudy"
  else "Rain"

/-- The synthetic fallback built inside the coordinate branch when the
provider path fails (route lines 148-170). -/
def routeFallback (month : ℕ) : Payload :=
  let baseTemp := fallbackBaseTemp month
  let current : CurrentConditions :=
    { temperature := jsRound baseTemp
      tempMin := none
      tempMax := none
      condition := fallbackCondition baseTemp
      humidity := 60
      windSpeed := 10
      windDeg := none
      windDir := none
      icon := some "fas fa-cloud-sun" }
  let forecast : List ForecastDay :=
    (List.range 7).map fun i =>
      { day := dayLabel i
        high := jsRound (baseTemp + (i % 3 : ℕ) - 1)
        low := jsRound (baseTemp - 5 + (i % 2 : ℕ))
        condition := fallbackDayCondition i
        icon := some "fas fa-cloud-sun" }
  { current := some current
    forecast := forecast
    hourly := none
    alerts := []
    recommendations :=
      ["Carry light cotton clothing", "Stay hydrated", "Use sunscreen during midday"]
    source := some "fallback-route"
    error := none }

/-- The synthetic fallback built by the defensive catch-all handler
(route lines 200-218): same seasonal data, but no icon fields and a
fourth recommendation string. -/
def catchFallback (month : ℕ) : Payload :=
  let baseTemp := fallbackBaseTemp month
  let current : CurrentConditions :=
    { temperature := jsRound baseTemp
      tempMin := none
      tempMax := none
      condition := fallbackCondition baseTemp
      humidity := 60
      windSpeed := 10
      windDeg := none
      windDir := none
      icon := none }
  let forecast : List ForecastDay :=
    (List.range 7).map fun i =>
      { day := dayLabel i
        high := jsRound (baseTemp + (i % 3 : ℕ) - 1)
        low := jsRound (baseTemp - 5 + (i % 2 : ℕ))
        condition := fallbackDayCondition i
        icon := none }
  { current := some current
    forecast := forecast
    hourly := none
    alerts := []
    recommendations :=
      ["Carry light cotton clothing", "Stay hydrated", "Use sunscreen during midday",
        "Check local advisories for heat or rain"]
    source := some "fallback-route"
    error := none }

/-- The text-based inference step (route lines 197-199): `ai.weather`
returning normally sends its result with `alerts` overwritten to `[]`;
`ai.weather` throwing reaches the outer catch-all, which answers 200
with the catch-all synthetic fallback. -/
def aiStep (env : Env) (q : WeatherQuery) (calls : List Call) : Response × List Call :=
  match env.ai q.cityQ with
  | some result =>
    ({ status := 200, body := { result with alerts := [] } }, calls ++ [Call.aiWeather q.cityQ])
  | none =>
    ({ status := 200, body := catchFallback env.month }, calls ++ [Call.aiWeather q.cityQ])

/-- The whole route handler (route lines 30-220): key check, input
validation, coordinate path with synthetic fallback, geocode path,
text-inference path, defensive catch-all. -/
def weatherRoute (env : Env) (q : WeatherQuery) : Response × List Call :=
  match env.key with
  | none =>
    ({ status := 503
       body := { current := none, forecast := [], hourly := none, alerts := [],
                 recommendations := [], source := none,
                 error := some "Weather service not configured" } }, [])
  | some _ =>
    match q.lat, q.lon with
    | some lat, some lon =>
      match getWeatherData env q.units lat lon with
      | (some payload, calls) => ({ status := 200, body := payload }, calls)
      | (none, calls) => ({ status := 200, body := routeFallback env.month }, calls)
    | _, _ =>
      if q.cityQ = "" then
        ({ status := 400
           body := { current := none, forecast := [], hourly := none, alerts := [],
                     recommendations := [], source := none, error := none } }, [])
      else
        match env.geocode q.cityQ with
        | some geocodeData =>
          match geocodeData.results with
          | some (location :: _) =>
            match getWeatherData env q.units location.lat location.lng with
            | (some payload, calls) =>
              ({ status := 200, body := payload }, Call.geocode q.cityQ :: calls)
            | (none, calls) =>
              aiStep env q (Call.geocode q.cityQ :: calls)
          | some [] => aiStep env q [Call.geocode q.cityQ]
          | none => aiStep env q [Call.geocode q.cityQ]
        | none => aiStep env q [Call.geocode q.cityQ]

/-- A sample current-conditions response used by concrete checks. -/
def sampleCurrent : CurrentData :=
  { temperatureDegrees := some 25
    conditionText := some "Rain showers"
    conditionType := some "RAIN"
    relativeHumidity := some 70
    windSpeedValue := some 12
    windDirectionDegrees := some 90
    windDirectionCardinal := some "E" }

/-- A sample forecast day used by concrete checks. -/
def sampleDay : DayData :=
  { maxTemperatureDegrees := some 28
    minTemperatureDegrees := some 18
    daytimeConditionText := some "Cloudy"
    daytimeConditionType := some "CLOUDY" }

/-- Environment in which every provider call succeeds. -/
def envOk : Env :=
  { key := some "k"
    month := 3
    current := fun _ _ => some sampleCurrent
    forecastDays := fun _ _ => some { forecastDays := some [sampleDay, sampleDay] }
    geocode := fun _ => some { results := some [{ lat := 10, lng := 20 }] }
    ai := fun _ => none }

/-- Environment in which every provider call fails, month index 0. -/
def envFail : Env :=
  { key := some "k"
    month := 0
    current := fun _ _ => none
    forecastDays := fun _ _ => none
    geocode := fun _ => none
    ai := fun _ => none }

/-- Environment with no `GOOGLE_API_KEY`. -/
def envNoKey : Env :=
  { envFail with key := none }

/-- Metric coordinate query at the origin. -/
def qCoordM : WeatherQuery := { lat := some 0, lon := some 0, cityQ := "", units := "metric" }

/-- Imperial coordinate query at the origin. -/
def qCoordI : WeatherQuery := { lat := some 0, lon := some 0, cityQ := "", units := "imperial" }

/-- Query with neither coordinates nor place name. -/
def qEmpty : WeatherQuery := { lat := none, lon := none, cityQ := "", units := "metric" }

/-- Place-name query. -/
def qCity : WeatherQuery := { lat := none, lon := none, cityQ := "Paris", units := "metric" }

/-- Query carrying both finite coordinates and a place name. -/
def qBoth : WeatherQuery := { lat := some 1, lon := some 2, cityQ := "Paris", units := "metric" }

/-- The current conditions `getWeatherData` computes from the sample
provider data. -/
def pOkC : CurrentConditions :=
  { temperature := 25
    tempMin := some 18
    tempMax := some 28
    condition := "Rain showers"
    humidity := 70
    windSpeed := 12
    windDeg := some 90
    windDir := some "E"
    icon := some "fas fa-cloud-rain" }

/-- One forecast day `getWeatherData` computes from `sampleDay`. -/
def pOkD (lbl : String) : ForecastDay :=
  { day := lbl, high := 28, low := 18, condition := "Cloudy", icon := some "fas fa-cloud" }

/-- The payload `getWeatherData` computes from the sample data. -/
def pOk : Payload :=
  { current := some pOkC
    forecast := [pOkD "Today", pOkD "Tomorrow"]
    hourly := some []
    alerts := []
    recommendations := ["Carry a raincoat", "Use sunscreen during midday"]
    source := some "google-weather"
    error := none }


/-- `jsRound` agrees with the mathematical floor of `x + 1/2`. -/
theorem jsRound_eq_floor (x : ℚ) : jsRound x = ⌊x + 1/2⌋ := by
  rw [jsRound, Rat.floor_def', Rat.floor_def]

theorem mapWithIdx_length (f : ℕ → α → β) (i : ℕ) (l : List α) :
    (mapWithIdx f i l).length = l.length := by
  induction l generalizing i with
  | nil => rfl
  | cons a as ih => simp [mapWithIdx, ih]

theorem mapWithIdx_get (f : ℕ → α → β) (i : ℕ) (l : List α) (j : ℕ)
    (h : j < l.length) (h' : j < (mapWithIdx f i l).length) :
    (mapWithIdx f i l).get ⟨j, h'⟩ = f (i + j) (l.get ⟨j, h⟩) := by
  induction l generalizing i j with
  | nil => exact absurd h (by simp)
  | cons a as ih =>
    cases j with
    | zero => simp [mapWithIdx]
    | succ k =>
      have hk : k < as.length := by simpa using h
      have h2 : k < (mapWithIdx f (i + 1) as).length := by simpa [mapWithIdx_length] using hk
      have hrec := ih (i + 1) k hk h2
      simpa [mapWithIdx, Nat.add_assoc, Nat.add_comm 1 k] using hrec

/-- `jsRound` is the identity on integers. -/
theorem jsRound_intCast (z : ℤ) : jsRound (z : ℚ) = z := by
  rw [jsRound_eq_floor, Int.floor_int_add]
  norm_num

/-- The seasonal baseline is always an integer value. -/
theorem fallbackBaseTemp_int (m : ℕ) : ∃ z : ℤ, fallbackBaseTemp m = (z : ℚ) := by
  unfold fallbackBaseTemp jsOrQ
  rcases h : ([20, 22, 26, 30, 32, 33, 32, 31, 30, 28, 24, 21] : List ℚ).get? m with _ | v
  · exact ⟨28, by norm_num⟩
  · have hv : v ∈ ([20, 22, 26, 30, 32, 33, 32, 31, 30, 28, 24, 21] : List ℚ) :=
      List.get?_mem h
    simp only []
    split
    · exact ⟨28, by norm_num⟩
    · fin_cases hv
      exacts [⟨20, by norm_num⟩, ⟨22, by norm_num⟩, ⟨26, by norm_num⟩, ⟨30, by norm_num⟩,
        ⟨32, by norm_num⟩, ⟨33, by norm_num⟩, ⟨32, by norm_num⟩, ⟨31, by norm_num⟩,
        ⟨30, by norm_num⟩, ⟨28, by norm_num⟩, ⟨24, by norm_num⟩, ⟨21, by norm_num⟩]

/-- `aiStep` always answers HTTP 200. -/
theorem aiStep_status (env : Env) (q : WeatherQuery) (calls : List Call) :
    (aiStep env q calls).1.status = 200 := by
  unfold aiStep
  split <;> rfl

/-- `aiStep` appends exactly one `aiWeather` call to the trace. -/
theorem aiStep_calls (env : Env) (q : WeatherQuery) (calls : List Call) :
    (aiStep env q calls).2 = calls ++ [Call.aiWeather q.cityQ] := by
  unfold aiStep
  split <;> rfl

/-- The trace of `getWeatherData` starts with the current-conditions call
at exactly the coordinates it was given. -/
theorem getWeatherData_calls (env : Env) (u : String) (lat lon : ℚ) :
    ∃ tail, (getWeatherData env u lat lon).2 = Call.currentConditions lat lon :: tail := by
  unfold getWeatherData
  rcases env.current lat lon with _ | cd
  · exact ⟨[], rfl⟩
  · rcases env.forecastDays lat lon with _ | fd
    · exact ⟨[Call.forecastDays lat lon], rfl⟩
    · exact ⟨[Call.forecastDays lat lon], rfl⟩

/-- On a coordinate query with a configured key, a successful provider
path is passed through as the 200 response body. -/
theorem weatherRoute_coord_success (env : Env) (q : WeatherQuery) (lat lon : ℚ) (k : String)
    (p : Payload) (hk : env.key = some k) (hlat : q.lat = some lat) (hlon : q.lon = some lon)
    (hp : (getWeatherData env q.units lat lon).1 = some p) :
    (weatherRoute env q).1 = { status := 200, body := p } := by
  rcases hgd : getWeatherData env q.units lat lon with ⟨wd, calls⟩
  rw [hgd] at hp
  simp only at hp
  subst hp
  simp [weatherRoute, hk, hlat, hlon, hgd]

/-- On a coordinate query with a configured key, a failed provider path
produces the in-route synthetic fallback with status 200. -/
theorem weatherRoute_coord_fallback (env : Env) (q : WeatherQuery) (lat lon : ℚ) (k : String)
    (hk : env.key = some k) (hlat : q.lat = some lat) (hlon : q.lon = some lon)
    (hnone : (getWeatherData env q.units lat lon).1 = none) :
    (weatherRoute env q).1 = { status := 200, body := routeFallback env.month } := by
  rcases hgd : getWeatherData env q.units lat lon with ⟨wd, calls⟩
  rw [hgd] at hnone
  simp only at hnone
  subst hnone
  simp [weatherRoute, hk, hlat, hlon, hgd]

/-- C6: with the provider credential missing, every query gets a 503
service-unavailable response carrying the explanatory error message,
with no outbound provider call and no synthetic fallback data (empty
current, empty forecast, no source tag). -/
theorem C6_missing_key_503 (env : Env) (q : WeatherQuery) (hk : env.key = none) :
    (weatherRoute env q).1.status = 503 ∧
    (weatherRoute env q).1.body.error = some "Weather service not configured" ∧
    (weatherRoute env q).2 = [] ∧
    (weatherRoute env q).1.body.current = none ∧
    (weatherRoute env q).1.body.forecast = [] ∧
    (weatherRoute env q).1.body.source = none := by
  simp [weatherRoute, hk]

/-- C6 witness: the 503 path at a concrete environment and query. -/
theorem C6_missing_key_503_witness :
    (weatherRoute envNoKey qCoordM).1.status = 503 ∧
    (weatherRoute envNoKey qCoordM).1.body.error = some "Weather service not configured" ∧
    (weatherRoute envNoKey qCoordM).2 = [] ∧
    (weatherRoute envNoKey qCoordM).1.body.current = none ∧
    (weatherRoute envNoKey qCoordM).1.body.forecast = [] ∧
    (weatherRoute envNoKey qCoordM).1.body.source = none :=
  C6_missing_key_503 envNoKey qCoordM rfl

/-- Status characterization of the route, shared by several results. -/
theorem weatherRoute_status_cases (env : Env) (q : WeatherQuery) :
    (env.key = none → (weatherRoute env q).1.status = 503) ∧
    (env.key ≠ none → (q.lat = none ∨ q.lon = none) → q.cityQ = "" →
      (weatherRoute env q).1.status = 400) ∧
    (env.key ≠ none → q.lat ≠ none → q.lon ≠ none →
      (weatherRoute env q).1.status = 200) ∧
    (env.key ≠ none → q.cityQ ≠ "" →
      (weatherRoute env q).1.status = 200) := by
  refine ⟨fun hk => by simp [weatherRoute, hk], ?_, ?_, ?_⟩
  · intro hk hnl hc
    rcases hkk : env.key with _ | k
    · exact absurd hkk hk
    rcases hl : q.lat with _ | lat <;> rcases ho : q.lon with _ | lon <;>
      simp_all [weatherRoute, hkk, hl, ho, hc]
  · intro hk hlat hlon
    rcases hkk : env.key with _ | k
    · exact absurd hkk hk
    rcases hl : q.lat with _ | lat
    · exact absurd hl hlat
    rcases ho : q.lon with _ | lon
    · exact absurd ho hlon
    rcases hgd : getWeatherData env q.units lat lon with ⟨wd, calls⟩
    rcases wd with _ | p
    · simp [weatherRoute_coord_fallback env q lat lon k hkk hl ho (by rw [hgd])]
    · simp [weatherRoute_coord_success env q lat lon k p hkk hl ho (by rw [hgd])]
  · intro hk hc
    rcases hkk : env.key with _ | k
    · exact absurd hkk hk
    rcases hl : q.lat with _ | lat <;> rcases ho : q.lon with _ | lon
    case _ | _ | _ =>
      simp only [weatherRoute, hkk, hl, ho, if_neg hc]
      rcases hg : env.geocode q.cityQ with _ | gd
      · simp [hg, aiStep_status]
      · rcases hr : gd.results with _ | locs
        · simp [hg, hr, aiStep_status]
        · rcases locs with _ | ⟨loc, rest⟩
          · simp [hg, hr, aiStep_status]
          · rcases hgd : getWeatherData env q.units loc.lat loc.lng with ⟨wd, calls⟩
            rcases wd with _ | p <;> simp [hg, hr, hgd, aiStep_status]
    case _ =>
      rcases hgd : getWeatherData env q.units lat lon with ⟨wd, calls⟩
      rcases wd with _ | p
      · simp [weatherRoute_coord_fallback env q lat lon k hkk hl ho (by rw [hgd])]
      · simp [weatherRoute_coord_success env q lat lon k p hkk hl ho (by rw [hgd])]

/-- C1: the handler is a total function (it never propagates an
exception), and its HTTP status is 503 when the credential is missing,
400 when neither coordinates nor a place name are supplied, and 200 in
every other case, whatever the four providers do. -/
theorem C1_lookup_total_status (env : Env) (q : WeatherQuery) :
    (env.key = none → (weatherRoute env q).1.status = 503) ∧
    (env.key ≠ none → (q.lat = none ∨ q.lon = none) → q.cityQ = "" →
      (weatherRoute env q).1.status = 400) ∧
    (env.key ≠ none → q.lat ≠ none → q.lon ≠ none →
      (weatherRoute env q).1.status = 200) ∧
    (env.key ≠ none → q.cityQ ≠ "" →
      (weatherRoute env q).1.status = 200) :=
  weatherRoute_status_cases env q

/-- C1 witness: with a key configured and a place name given, even with
every provider failing the response status is 200. -/
theorem C1_lookup_total_status_witness : (weatherRoute envFail qCity).1.status = 200 :=
  (C1_lookup_total_status envFail qCity).2.2.2 (by simp [envFail]) (by simp [qCity])

/-- C4 counterexample: a query carrying BOTH finite coordinates and a
non-empty place name proceeds past input validation (status 200 and an
outbound provider call is made), although "exactly one of coordinates
or place name present" is false for it. -/
theorem C4_counterexample :
    qBoth.lat ≠ none ∧ qBoth.lon ≠ none ∧ qBoth.cityQ ≠ "" ∧
    (weatherRoute envFail qBoth).1.status = 200 ∧
    (weatherRoute envFail qBoth).2 = [Call.currentConditions 1 2] := by
  refine ⟨by simp [qBoth], by simp [qBoth], by simp [qBoth], ?_, ?_⟩ <;>
    simp [weatherRoute, envFail, qBoth, getWeatherData]

/-- C4 (amended): with a key configured, a lookup proceeds past input
validation whenever at least one of finite coordinates or a non-empty
place name is present (coordinates take precedence); when neither
holds it is rejected with the 400 client error, makes no outbound
provider call, and produces no fallback data. -/
theorem C4_validation (env : Env) (q : WeatherQuery) (k : String) (hk : env.key = some k) :
    (q.lat ≠ none → q.lon ≠ none → (weatherRoute env q).1.status = 200) ∧
    (q.cityQ ≠ "" → (weatherRoute env q).1.status = 200) ∧
    ((q.lat = none ∨ q.lon = none) → q.cityQ = "" →
      (weatherRoute env q).1.status = 400 ∧
      (weatherRoute env q).2 = [] ∧
      (weatherRoute env q).1.body.source = none ∧
      (weatherRoute env q).1.body.forecast = [] ∧
      (weatherRoute env q).1.body.current = none ∧
      (weatherRoute env q).1.body.recommendations = []) := by
  have hk' : env.key ≠ none := by simp [hk]
  refine ⟨(weatherRoute_status_cases env q).2.2.1 hk',
    (weatherRoute_status_cases env q).2.2.2 hk', ?_⟩
  intro hnl hc
  rcases hl : q.lat with _ | lat <;> rcases ho : q.lon with _ | lon <;>
    simp_all [weatherRoute, hk, hl, ho, hc]

/-- C4 witness: the no-location rejection at a concrete environment. -/
theorem C4_validation_witness :
    (weatherRoute envFail qEmpty).1.status = 400 ∧
    (weatherRoute envFail qEmpty).2 = [] ∧
    (weatherRoute envFail qEmpty).1.body.source = none ∧
    (weatherRoute envFail qEmpty).1.body.forecast = [] ∧
    (weatherRoute envFail qEmpty).1.body.current = none ∧
    (weatherRoute envFail qEmpty).1.body.recommendations = [] :=
  (C4_validation envFail qEmpty "k" rfl).2.2 (Or.inl rfl) rfl

/-- C2 counterexample: on a coordinate query with both provider calls
failing, the source tag of the synthesized result is the string
"fallback-route", not "fallback" as the claim states. -/
theorem C2_counterexample :
    envFail.current 0 0 = none ∧ envFail.forecastDays 0 0 = none ∧
    qCoordM.lat = some 0 ∧ qCoordM.lon = some 0 ∧
    (weatherRoute envFail qCoordM).1.body.source = some "fallback-route" ∧
    ¬ (weatherRoute envFail qCoordM).1.body.source = some "fallback" := by
  refine ⟨rfl, rfl, rfl, rfl, ?_, ?_⟩ <;>
    simp [weatherRoute, envFail, qCoordM, getWeatherData, routeFallback]

/-- C2 (amended): when both provider calls fail on a coordinate query,
the result is tagged `source = "fallback-route"` (not `"fallback"`) and
carries exactly 7 synthetic forecast days with, for day index `i` and
integer baseline `b`: high `b + (i mod 3) - 1`, low `b - 5 + (i mod 2)`,
and the condition cycling Sunny, Partly Cloudy, Cloudy, Rain on
`i mod 4`. -/
theorem C2_fallback_pattern (env : Env) (q : WeatherQuery) (lat lon : ℚ) (k : String)
    (hk : env.key = some k) (hlat : q.lat = some lat) (hlon : q.lon = some lon)
    (hc : env.current lat lon = none) (hf : env.forecastDays lat lon = none) :
    (weatherRoute env q).1.status = 200 ∧
    (weatherRoute env q).1.body.source = some "fallback-route" ∧
    (weatherRoute env q).1.body.forecast.length = 7 ∧
    ∀ i (h : i < (weatherRoute env q).1.body.forecast.length),
      ((weatherRoute env q).1.body.forecast.get ⟨i, h⟩).high
          = jsRound (fallbackBaseTemp env.month) + ((i % 3 : ℕ) : ℤ) - 1 ∧
      ((weatherRoute env q).1.body.forecast.get ⟨i, h⟩).low
          = jsRound (fallbackBaseTemp env.month) - 5 + ((i % 2 : ℕ) : ℤ) ∧
      ((weatherRoute env q).1.body.forecast.get ⟨i, h⟩).condition =
        (if i % 4 = 0 then "Sunny" else if i % 4 = 1 then "Partly Cloudy"
          else if i % 4 = 2 then "Cloudy" else "Rain") := by
  have hgd : (getWeatherData env q.units lat lon).1 = none := by
    simp [getWeatherData, hc]
  have hroute := weatherRoute_coord_fallback env q lat lon k hk hlat hlon hgd
  rw [hroute]
  obtain ⟨z, hz⟩ := fallbackBaseTemp_int env.month
  refine ⟨rfl, rfl, by simp [routeFallback], ?_⟩
  intro i h
  have hm3 : (((i : ℤ) % 3 : ℤ) : ℚ) = ((i % 3 : ℕ) : ℚ) := by norm_cast
  have hm2 : (((i : ℤ) % 2 : ℤ) : ℚ) = ((i % 2 : ℕ) : ℚ) := by norm_cast
  have hentry : ({ status := 200, body := routeFallback env.month } : Response).body.forecast.get
        ⟨i, h⟩ =
      { day := dayLabel i
        high := jsRound (fallbackBaseTemp env.month + ((i % 3 : ℕ) : ℚ) - 1)
        low := jsRound (fallbackBaseTemp env.month - 5 + ((i % 2 : ℕ) : ℚ))
        condition := fallbackDayCondition i
        icon := some "fas fa-cloud-sun" } := by
    simp [routeFallback]
  rw [hentry]
  have hhigh : jsRound (fallbackBaseTemp env.month + ((i % 3 : ℕ) : ℚ) - 1)
      = jsRound (fallbackBaseTemp env.month) + ((i % 3 : ℕ) : ℤ) - 1 := by
    have hq : fallbackBaseTemp env.month + ((i % 3 : ℕ) : ℚ) - 1
        = ((z + ((i % 3 : ℕ) : ℤ) - 1 : ℤ) : ℚ) := by
      rw [hz]; push_cast; rw [hm3]
    rw [hq, jsRound_intCast, hz, jsRound_intCast]
  have hlow : jsRound (fallbackBaseTemp env.month - 5 + ((i % 2 : ℕ) : ℚ))
      = jsRound (fallbackBaseTemp env.month) - 5 + ((i % 2 : ℕ) : ℤ) := by
    have hq : fallbackBaseTemp env.month - 5 + ((i % 2 : ℕ) : ℚ)
        = ((z - 5 + ((i % 2 : ℕ) : ℤ) : ℤ) : ℚ) := by
      rw [hz]; push_cast; rw [hm2]
    rw [hq, jsRound_intCast, hz, jsRound_intCast]
  exact ⟨hhigh, hlow, by simp [fallbackDayCondition]⟩

/-- C2 witness: the fallback pattern at a concrete double failure. -/
theorem C2_fallback_pattern_witness :
    (weatherRoute envFail qCoordM).1.status = 200 ∧
    (weatherRoute envFail qCoordM).1.body.source = some "fallback-route" ∧
    (weatherRoute envFail qCoordM).1.body.forecast.length = 7 :=
  ⟨(C2_fallback_pattern envFail qCoordM 0 0 "k" rfl rfl rfl rfl rfl).1,
    (C2_fallback_pattern envFail qCoordM 0 0 "k" rfl rfl rfl rfl rfl).2.1,
    (C2_fallback_pattern envFail qCoordM 0 0 "k" rfl rfl rfl rfl rfl).2.2.1⟩

/-- In the provider-success path, the reported current temperature is
the provider temperature rounded (metric) or converted by
`F = C * 9/5 + 32` and rounded (any other unit string). -/
theorem getWeatherData_current_temperature (env : Env) (u : String) (lat lon : ℚ)
    (cd : CurrentData) (fd : ForecastData)
    (hc : env.current lat lon = some cd) (hf : env.forecastDays lat lon = some fd) :
    ∃ p c, (getWeatherData env u lat lon).1 = some p ∧ p.current = some c ∧
      c.temperature =
        (if u = "metric" then jsRound (cd.temperatureDegrees.getD 22)
          else jsRound (cd.temperatureDegrees.getD 22 * 9 / 5 + 32)) := by
  unfold getWeatherData
  rw [hc, hf]
  refine ⟨_, _, rfl, rfl, ?_⟩
  dsimp only
  split <;> rfl

/-- C3 counterexample: with imperial units requested and both provider
calls failing, the synthetic fallback reports the metric baseline 20°C
unconverted, although the imperial conversion of 20°C is 68°F. -/
theorem C3_counterexample :
    qCoordI.units = "imperial" ∧
    (weatherRoute envFail qCoordI).1.body.current.map (fun c => c.temperature) = some 20 ∧
    jsRound ((20 : ℚ) * 9 / 5 + 32) = 68 ∧
    ¬ (weatherRoute envFail qCoordI).1.body.current.map (fun c => c.temperature) = some 68 := by
  refine ⟨rfl, ?_, by norm_num [jsRound_eq_floor], ?_⟩ <;>
    · simp [weatherRoute, envFail, qCoordI, getWeatherData, routeFallback, fallbackBaseTemp,
        jsOrQ, jsRound_eq_floor]
      norm_num

/-- C3 (amended): in the provider path temperatures are expressed in the
requested unit system — metric values are rounded as-is and any other
requested unit gets `round(C * 9/5 + 32)`, with 0°C mapping to 32°F and
100°C to 212°F exactly — but the synthetic fallback ignores the
requested units and always reports the metric baseline. -/
theorem C3_unit_conversion (env : Env) (q : WeatherQuery) (lat lon : ℚ) (k : String)
    (cd : CurrentData) (fd : ForecastData) (hk : env.key = some k)
    (hlat : q.lat = some lat) (hlon : q.lon = some lon)
    (hc : env.current lat lon = some cd) (hf : env.forecastDays lat lon = some fd) :
    (∃ c, (weatherRoute env q).1.body.current = some c ∧
      (q.units = "metric" → c.temperature = jsRound (cd.temperatureDegrees.getD 22)) ∧
      (q.units ≠ "metric" →
        c.temperature = jsRound (cd.temperatureDegrees.getD 22 * 9 / 5 + 32))) ∧
    jsRound ((0 : ℚ) * 9 / 5 + 32) = 32 ∧
    jsRound ((100 : ℚ) * 9 / 5 + 32) = 212 := by
  obtain ⟨p, c, hp, hpc, hct⟩ :=
    getWeatherData_current_temperature env q.units lat lon cd fd hc hf
  have hroute := weatherRoute_coord_success env q lat lon k p hk hlat hlon hp
  rw [hroute]
  exact ⟨⟨c, hpc, fun hu => by rw [hct, if_pos hu], fun hu => by rw [hct, if_neg hu]⟩,
    by norm_num [jsRound_eq_floor], by norm_num [jsRound_eq_floor]⟩

/-- C3 witness: the imperial conversion at a concrete provider response
(25°C reported as 77°F). -/
theorem C3_unit_conversion_witness :
    ∃ c, (weatherRoute envOk qCoordI).1.body.current = some c ∧
      c.temperature = jsRound ((25 : ℚ) * 9 / 5 + 32) :=
  have h := (C3_unit_conversion envOk qCoordI 0 0 "k" sampleCurrent
    { forecastDays := some [sampleDay, sampleDay] } rfl rfl rfl rfl rfl).1
  by
    obtain ⟨c, hcur, hmet, himp⟩ := h
    exact ⟨c, hcur, by simpa [sampleCurrent] using himp (by simp [qCoordI])⟩

/-- In the provider-success path the forecast is an indexed map over at
most the first 7 provider forecast days, and each entry's label is the
positional day label. -/
theorem getWeatherData_forecast_shape (env : Env) (u : String) (lat lon : ℚ)
    (cd : CurrentData) (fd : ForecastData)
    (hc : env.current lat lon = some cd) (hf : env.forecastDays lat lon = some fd) :
    ∃ p g, (getWeatherData env u lat lon).1 = some p ∧
      p.forecast = mapWithIdx g 0 ((fd.forecastDays.getD []).take 7) ∧
      ∀ i d, (g i d).day = dayLabel i := by
  unfold getWeatherData
  rw [hc, hf]
  exact ⟨_, _, rfl, rfl, fun i d => rfl⟩

/-- C7: for every coordinate query with a configured key, whatever the
providers answer, the forecast has at most 7 entries, every entry's
label is the day label for its position, and the first entry (when one
exists) is labelled "Today".  Temperatures are integers by
construction: every temperature field of the embedding has type `ℤ`
because the route applies `Math.round` to each of them. -/
theorem C7_forecast_invariants (env : Env) (q : WeatherQuery) (lat lon : ℚ) (k : String)
    (hk : env.key = some k) (hlat : q.lat = some lat) (hlon : q.lon = some lon) :
    (weatherRoute env q).1.body.forecast.length ≤ 7 ∧
    (∀ i (h : i < (weatherRoute env q).1.body.forecast.length),
      ((weatherRoute env q).1.body.forecast.get ⟨i, h⟩).day = dayLabel i) ∧
    (∀ h : 0 < (weatherRoute env q).1.body.forecast.length,
      ((weatherRoute env q).1.body.forecast.get ⟨0, h⟩).day = "Today") := by
  have main : (weatherRoute env q).1.body.forecast.length ≤ 7 ∧
      (∀ i (h : i < (weatherRoute env q).1.body.forecast.length),
        ((weatherRoute env q).1.body.forecast.get ⟨i, h⟩).day = dayLabel i) := by
    rcases hgd : (getWeatherData env q.units lat lon).1 with _ | p
    · have hroute := weatherRoute_coord_fallback env q lat lon k hk hlat hlon hgd
      rw [hroute]
      refine ⟨by simp [routeFallback], ?_⟩
      intro i h
      have h7 : i < 7 := by simpa [routeFallback] using h
      simp [routeFallback]
    · rcases hcur : env.current lat lon with _ | cd
      · rw [getWeatherData, hcur] at hgd
        simp at hgd
      rcases hfd : env.forecastDays lat lon with _ | fd
      · rw [getWeatherData, hcur, hfd] at hgd
        simp at hgd
      obtain ⟨p', g, hp', hpf, hg⟩ :=
        getWeatherData_forecast_shape env q.units lat lon cd fd hcur hfd
      rw [hgd] at hp'
      have hpe : p = p' := by simpa using hp'
      subst hpe
      have hroute := weatherRoute_coord_success env q lat lon k p hk hlat hlon hgd
      rw [hroute]
      dsimp only
      rw [hpf]
      constructor
      · rw [mapWithIdx_length]
        simp
      · intro i h
        have hi : i < ((fd.forecastDays.getD []).take 7).length := by
          simpa [mapWithIdx_length] using h
        rw [mapWithIdx_get g 0 _ i hi h]
        rw [hg, Nat.zero_add]
  exact ⟨main.1, main.2, fun h => by rw [main.2 0 h]; rfl⟩

/-- C7 witness: the invariants at a concrete successful lookup. -/
theorem C7_forecast_invariants_witness :
    (weatherRoute envOk qCoordM).1.body.forecast.length ≤ 7 ∧
    (∀ h : 0 < (weatherRoute envOk qCoordM).1.body.forecast.length,
      ((weatherRoute envOk qCoordM).1.body.forecast.get ⟨0, h⟩).day = "Today") :=
  ⟨(C7_forecast_invariants envOk qCoordM 0 0 "k" rfl rfl rfl).1,
    (C7_forecast_invariants envOk qCoordM 0 0 "k" rfl rfl rfl).2.2⟩

/-- C8: the synthetic baseline is the month-indexed entry of the fixed
table (28 when the index is out of range), the fallback condition is
derived from the 30/25 thresholds, and month index 5 yields baseline 33
with condition "Sunny". -/
theorem C8_baseline_table (m : ℕ) :
    (m < 12 → fallbackBaseTemp m
        = ([20, 22, 26, 30, 32, 33, 32, 31, 30, 28, 24, 21] : List ℚ).getD m 0) ∧
    (12 ≤ m → fallbackBaseTemp m = 28) ∧
    (∀ c, (routeFallback m).current = some c →
      c.temperature = jsRound (fallbackBaseTemp m) ∧
      ((30 : ℚ) ≤ fallbackBaseTemp m → c.condition = "Sunny") ∧
      (¬ (30 : ℚ) ≤ fallbackBaseTemp m → (25 : ℚ) ≤ fallbackBaseTemp m →
        c.condition = "Partly Cloudy") ∧
      (¬ (25 : ℚ) ≤ fallbackBaseTemp m → c.condition = "Cloudy")) ∧
    fallbackBaseTemp 5 = 33 ∧
    (∀ c, (routeFallback 5).current = some c → c.condition = "Sunny") := by
  refine ⟨?_, ?_, ?_, ?_, ?_⟩
  · intro h12
    interval_cases m <;> norm_num [fallbackBaseTemp, jsOrQ]
  · intro h12
    have hnone : ([20, 22, 26, 30, 32, 33, 32, 31, 30, 28, 24, 21] : List ℚ)[m]? = none :=
      List.getElem?_eq_none (by simpa using h12)
    simp [fallbackBaseTemp, jsOrQ, hnone]
  · intro c hc
    have hceq : c =
        { temperature := jsRound (fallbackBaseTemp m)
          tempMin := none
          tempMax := none
          condition := fallbackCondition (fallbackBaseTemp m)
          humidity := 60
          windSpeed := 10
          windDeg := none
          windDir := none
          icon := some "fas fa-cloud-sun" } := by
      simpa [routeFallback] using hc.symm
    subst hceq
    refine ⟨rfl, ?_, ?_, ?_⟩
    · intro h30
      simp [fallbackCondition, if_pos h30]
    · intro h30 h25
      simp [fallbackCondition, if_neg h30, if_pos h25]
    · intro h25
      have h30 : ¬ (30 : ℚ) ≤ fallbackBaseTemp m := fun h => h25 (le_trans (by norm_num) h)
      simp [fallbackCondition, if_neg h30, if_neg h25]
  · norm_num [fallbackBaseTemp, jsOrQ]
  · intro c hc
    have hb : fallbackBaseTemp 5 = 33 := by norm_num [fallbackBaseTemp, jsOrQ]
    have hceq : c =
        { temperature := jsRound (fallbackBaseTemp 5)
          tempMin := none
          tempMax := none
          condition := fallbackCondition (fallbackBaseTemp 5)
          humidity := 60
          windSpeed := 10
          windDeg := none
          windDir := none
          icon := some "fas fa-cloud-sun" } := by
      simpa [routeFallback] using hc.symm
    subst hceq
    simp [fallbackCondition, hb]
    norm_num

/-- C8 witness: the June baseline and an out-of-range index. -/
theorem C8_baseline_table_witness :
    fallbackBaseTemp 5 = 33 ∧ fallbackBaseTemp 12 = 28 :=
  ⟨(C8_baseline_table 5).2.2.2.1, (C8_baseline_table 12).2.1 (le_refl 12)⟩

/-- C9: in the coordinate-based provider path, when the forecast is
non-empty the current conditions' tempMax/tempMin equal the first
forecast day's high/low, overriding the coarse estimate
(temperature, temperature - 5) that is used when the forecast is
empty. -/
theorem C9_today_minmax (env : Env) (u : String) (lat lon : ℚ) (p : Payload)
    (hp : (getWeatherData env u lat lon).1 = some p) :
    (∀ f0 rest, p.forecast = f0 :: rest →
      ∃ c, p.current = some c ∧ c.tempMax = some f0.high ∧ c.tempMin = some f0.low) ∧
    (p.forecast = [] →
      ∃ c, p.current = some c ∧ c.tempMax = some c.temperature ∧
        c.tempMin = some (c.temperature - 5)) := by
  unfold getWeatherData at hp
  rcases hcur : env.current lat lon with _ | cd <;> rw [hcur] at hp
  · simp at hp
  rcases hfd : env.forecastDays lat lon with _ | fd <;> rw [hfd] at hp
  · simp at hp
  simp only [Option.some.injEq] at hp
  subst hp
  constructor
  · intro f0 rest hf0
    dsimp only at hf0 ⊢
    rw [hf0]
    exact ⟨_, rfl, rfl, rfl⟩
  · intro hnil
    dsimp only at hnil ⊢
    rw [hnil]
    exact ⟨_, rfl, rfl, rfl⟩

/-- Concrete evaluation of the provider path on the sample data. -/
theorem getWeatherData_envOk : (getWeatherData envOk "metric" 0 0).1 = some pOk := by
  simp only [getWeatherData, envOk, sampleCurrent, sampleDay, pOk, pOkC, pOkD, mapWithIdx,
    jsOrStr, iconMap, dayLabel, jsRound_eq_floor]
  norm_num
  decide

/-- C9 witness: the override at the concrete sample data. -/
theorem C9_today_minmax_witness :
    ∃ c, pOk.current = some c ∧
      c.tempMax = some (pOkD "Today").high ∧ c.tempMin = some (pOkD "Today").low :=
  (C9_today_minmax envOk "metric" 0 0 pOk getWeatherData_envOk).1
    (pOkD "Today") [pOkD "Tomorrow"] rfl

/-- C10: for every month the two synthetic fallback builders agree on
the current conditions (temperature, humidity, wind speed, condition),
on every forecast entry's day/high/low/condition, on the source tag and
on the alerts; the catch-all variant appends exactly one extra
recommendation string and omits the icon fields that the in-route
variant sets. -/
theorem C10_fallbacks_agree (m : ℕ) :
    (∃ rc cc, (routeFallback m).current = some rc ∧ (catchFallback m).current = some cc ∧
      cc.temperature = rc.temperature ∧ cc.humidity = rc.humidity ∧
      cc.windSpeed = rc.windSpeed ∧ cc.condition = rc.condition ∧
      rc.icon = some "fas fa-cloud-sun" ∧ cc.icon = none) ∧
    (catchFallback m).forecast.map (fun d => (d.day, d.high, d.low, d.condition)) =
      (routeFallback m).forecast.map (fun d => (d.day, d.high, d.low, d.condition)) ∧
    (∀ d ∈ (routeFallback m).forecast, d.icon = some "fas fa-cloud-sun") ∧
    (∀ d ∈ (catchFallback m).forecast, d.icon = none) ∧
    (catchFallback m).recommendations =
      (routeFallback m).recommendations ++ ["Check local advisories for heat or rain"] ∧
    (catchFallback m).source = (routeFallback m).source ∧
    (catchFallback m).alerts = (routeFallback m).alerts := by
  refine ⟨⟨_, _, rfl, rfl, rfl, rfl, rfl, rfl, rfl, rfl⟩, ?_, ?_, ?_, rfl, rfl, rfl⟩
  · simp [routeFallback, catchFallback, List.map_map]
  · intro d hd
    simp only [routeFallback, List.mem_map] at hd
    obtain ⟨i, _, rfl⟩ := hd
    rfl
  · intro d hd
    simp only [catchFallback, List.mem_map] at hd
    obtain ⟨i, _, rfl⟩ := hd
    rfl

/-- C10 witness: the agreement at a concrete month. -/
theorem C10_fallbacks_agree_witness :
    (catchFallback 0).recommendations =
      (routeFallback 0).recommendations ++ ["Check local advisories for heat or rain"] ∧
    (catchFallback 0).source = (routeFallback 0).source :=
  ⟨(C10_fallbacks_agree 0).2.2.2.2.1, (C10_fallbacks_agree 0).2.2.2.2.2.1⟩

/-- C5: on a place-name query (no finite coordinates, non-empty name):
when geocoding succeeds with at least one result the subsequent weather
lookup is called at exactly the first result's coordinates (and a
successful lookup is returned as the 200 body); when geocoding fails or
returns no results the route delegates to the text-based inference step;
and that step returns the text-inference result on success or falls
through to the catch-all synthetic fallback (status 200) on failure. -/
theorem C5_placename_path (env : Env) (q : WeatherQuery) (k : String)
    (hk : env.key = some k) (hlat : q.lat = none) (hcity : q.cityQ ≠ "") :
    (∀ gd loc rest, env.geocode q.cityQ = some gd → gd.results = some (loc :: rest) →
      (∃ tail, (weatherRoute env q).2
          = Call.geocode q.cityQ :: Call.currentConditions loc.lat loc.lng :: tail) ∧
      (∀ p, (getWeatherData env q.units loc.lat loc.lng).1 = some p →
        (weatherRoute env q).1 = { status := 200, body := p })) ∧
    (∀ gd, env.geocode q.cityQ = some gd → (gd.results = none ∨ gd.results = some []) →
      weatherRoute env q = aiStep env q [Call.geocode q.cityQ]) ∧
    (env.geocode q.cityQ = none →
      weatherRoute env q = aiStep env q [Call.geocode q.cityQ]) ∧
    (∀ r, env.ai q.cityQ = some r → ∀ calls, aiStep env q calls
        = ({ status := 200, body := { r with alerts := [] } },
            calls ++ [Call.aiWeather q.cityQ])) ∧
    (env.ai q.cityQ = none → ∀ calls, aiStep env q calls
        = ({ status := 200, body := catchFallback env.month },
            calls ++ [Call.aiWeather q.cityQ])) := by
  refine ⟨?_, ?_, ?_, ?_, ?_⟩
  · intro gd loc rest hg hr
    rcases hgd : getWeatherData env q.units loc.lat loc.lng with ⟨wd, calls⟩
    obtain ⟨tail0, htail⟩ := getWeatherData_calls env q.units loc.lat loc.lng
    rw [hgd] at htail
    simp only at htail
    constructor
    · rcases wd with _ | pp
      · refine ⟨tail0 ++ [Call.aiWeather q.cityQ], ?_⟩
        simp [weatherRoute, hk, hlat, hcity, hg, hr, hgd, aiStep_calls, htail]
      · refine ⟨tail0, ?_⟩
        simp [weatherRoute, hk, hlat, hcity, hg, hr, hgd, htail]
    · intro p hp
      simp only at hp
      subst hp
      simp [weatherRoute, hk, hlat, hcity, hg, hr, hgd]
  · intro gd hg hr
    rcases hr with hr | hr <;> simp [weatherRoute, hk, hlat, hcity, hg, hr]
  · intro hg
    simp [weatherRoute, hk, hlat, hcity, hg]
  · intro r hai calls
    simp [aiStep, hai]
  · intro hai calls
    simp [aiStep, hai]

/-- C5 witness: at the concrete sample environment, the weather lookup
after geocoding "Paris" is issued at the first geocoding result's
coordinates (10, 20). -/
theorem C5_placename_path_witness :
    ∃ tail, (weatherRoute envOk qCity).2
      = Call.geocode qCity.cityQ :: Call.currentConditions 10 20 :: tail :=
  ((C5_placename_path envOk qCity "k" rfl rfl (by simp [qCity])).1
    { results := some [{ lat := 10, lng := 20 }] } { lat := 10, lng := 20 } []
    rfl rfl).1
